import Mathlib

/-!
Shallow embedding of `bagit.py` (bagit library, single file): the tag-file
parser `_parse_tags`, the manifest builder `_make_manifest` / `_manifest_line`,
the manifest loader loop of `Bag._load_manifests`, the structural validator
`Bag._validate_structure_tag_files`, the content validators
`Bag._validate_oxum` and `Bag._validate_entries`, and the exception handling
of `make_bag`.  Python strings are Lean `String`s, file bytes are `List Nat`,
machine-independent; exception-raising code is embedded as `Except`.
-/

/-! ## Python string primitives

Faithful models of the Python 2 `str` operations the source uses:
`str.isspace`, `str.strip`, `str.lstrip("*")`, `str.split(sep, 1)`,
`str.split(None, 1)`, `str.isdigit`, `long()`, and `os.path.normpath`
(posix variant).  -/

/-- The six characters Python's `str.isspace` / `str.strip` treat as
whitespace: space, tab, newline, carriage return, vertical tab, form feed. -/
def isPySpace (c : Char) : Bool :=
  c == ' ' || c == '\t' || c == '\n' || c == '\r' || c.toNat == 11 || c.toNat == 12

/-- `s.isspace()`: nonempty and every character is whitespace. -/
def pyIsspace (s : String) : Bool :=
  !s.data.isEmpty && s.data.all isPySpace

/-- Strip leading and trailing Python whitespace from a character list. -/
def pyStripList (l : List Char) : List Char :=
  ((l.dropWhile isPySpace).reverse.dropWhile isPySpace).reverse

/-- `s.strip()`. -/
def pyStrip (s : String) : String := ⟨pyStripList s.data⟩

/-- `s.lstrip(c)`: drop every leading occurrence of the character `c`. -/
def pyLstrip (c : Char) (s : String) : String := ⟨s.data.dropWhile (· == c)⟩

/-- Split a character list at the first occurrence of `c`, if any. -/
def splitFirstAux (c : Char) : List Char → Option (List Char × List Char)
  | [] => none
  | x :: xs =>
    if x == c then some ([], xs)
    else (splitFirstAux c xs).map (fun p => (x :: p.1, p.2))

/-- `s.split(c, 1)`: at most one split, at the first occurrence of `c`.
Yields `[s]` when `c` does not occur, else the two halves. -/
def pySplitChar1 (c : Char) (s : String) : List String :=
  match splitFirstAux c s.data with
  | none => [s]
  | some p => [⟨p.1⟩, ⟨p.2⟩]

/-- `s.split(None, 1)`: skip leading whitespace, take the first
whitespace-free token, then the remainder with its leading whitespace
dropped; empty results are omitted exactly as in Python. -/
def pySplitWs1 (s : String) : List String :=
  let l := s.data.dropWhile isPySpace
  let tok := l.takeWhile (fun c => !isPySpace c)
  let rest := (l.dropWhile (fun c => !isPySpace c)).dropWhile isPySpace
  if tok.isEmpty then []
  else if rest.isEmpty then [⟨tok⟩]
  else [⟨tok⟩, ⟨rest⟩]

/-- `s.isdigit()`: nonempty and all decimal digits. -/
def pyIsDigit (s : String) : Bool :=
  !s.data.isEmpty && s.data.all Char.isDigit

/-- `long(s)` on a digit string: decimal value. -/
def pyLong (s : String) : Nat :=
  s.data.foldl (fun n c => n * 10 + (c.toNat - 48)) 0

/-- `dict.get` over an association list built with last-value-wins updates
(`dict(pairs)` in Python keeps the last occurrence of a key). -/
def pyDictGet (l : List (String × String)) (k : String) : Option String :=
  match l with
  | [] => none
  | (k', v) :: rest =>
    match pyDictGet rest k with
    | some r => some r
    | none => if k' == k then some v else none

/-- `os.path.normpath` (posix): collapse empty and `.` components, resolve
`..` against preceding components, preserve up-to-two initial slashes. -/
def normpath (p : String) : String :=
  if p == "" then "."
  else
    let initialSlashes : Nat :=
      if p.startsWith "/" then
        (if p.startsWith "//" && !(p.startsWith "///") then 2 else 1)
      else 0
    let comps := p.splitOn "/"
    let newComps := comps.foldl (fun acc comp =>
      if comp == "" || comp == "." then acc
      else if comp != ".." || (initialSlashes == 0 && acc.isEmpty)
              || (!acc.isEmpty && acc.getLast? == some "..") then acc ++ [comp]
      else if !acc.isEmpty then acc.dropLast
      else acc) []
    let path := String.intercalate "/" newComps
    let path := String.join (List.replicate initialSlashes "/") ++ path
    if path == "" then "." else path

/-! ## Tag File Parser: `_parse_tags`

The source iterates the file's lines keeping a pending `(tag_name,
tag_value)`.  Blank lines are skipped; a line whose first character is
whitespace appends its stripped content to `tag_value` (a `TypeError` if
`tag_value` is still `None`); any other line yields the pending record
(only when `tag_name` is truthy, i.e. non-empty) and starts a new one by
splitting on the first colon — `parts[1]` raises an `IndexError` when the
line has no colon.  At EOF the pending record is yielded under the same
truthiness condition. -/

/-- The exceptions `_parse_tags` can raise: `IndexError` from `parts[1]` on
a colon-less line, `TypeError` from `None += str` when the first non-blank
line is a continuation. -/
inductive ParseErr
  | indexError
  | typeError
deriving DecidableEq, Repr

/-- `len(line) == 0 or line.isspace()`: the blank-line skip condition. -/
def pyIsBlankLine (line : String) : Bool :=
  line.length == 0 || pyIsspace line

/-- `line[0].isspace()` on a nonempty line. -/
def pyFirstCharIsSpace (line : String) : Bool :=
  match line.data with
  | [] => false
  | c :: _ => isPySpace c

/-- `if tag_name: yield (tag_name, tag_value)` — a record is emitted only
when its name is truthy (a non-empty string). -/
def emitPending : Option (String × String) → List (String × String)
  | none => []
  | some (n, v) => if n == "" then [] else [(n, v)]

/-- The line loop of `_parse_tags`, with the pending record made explicit. -/
def _parse_tags_aux (pending : Option (String × String)) :
    List String → Except ParseErr (List (String × String))
  | [] => .ok (emitPending pending)
  | line :: rest =>
    if pyIsBlankLine line then _parse_tags_aux pending rest
    else if pyFirstCharIsSpace line then
      match pending with
      | some p => _parse_tags_aux (some (p.1, p.2 ++ pyStrip line)) rest
      | none => .error ParseErr.typeError
    else
      match pySplitChar1 ':' (pyStrip line) with
      | [p0, p1] =>
        match _parse_tags_aux (some (pyStrip p0, pyStrip p1)) rest with
        | .ok out => .ok (emitPending pending ++ out)
        | .error e => .error e
      | _ => .error ParseErr.indexError

/-- `_parse_tags` over the file's lines (each line as Python yields it,
trailing newline included). -/
def _parse_tags (lines : List String) : Except ParseErr (List (String × String)) :=
  _parse_tags_aux none lines

/-! ## Manifest builder: `_make_manifest` / `_manifest_line`

Files are modelled as `(filename, contents)` with contents a byte list.
`_manifest_line` streams one file through a single `hashlib.md5` object in
16 KiB blocks, summing the block lengths — i.e. the file's byte length —
and returns `(hexdigest, filename, byte count)`.  The md5 hex-digest
function itself lives in `hashlib` (external library) and is a parameter.
`_make_manifest` maps `_manifest_line` over the walked files (the worker
pool is joined by `pool.map` before any accumulation), counts the results,
sums their byte counts, writes one `"DIGEST  PATH"` line per result, and
returns the Oxum string `"%s.%s" % (total_bytes, num_files)`. -/

/-- `_manifest_line(filename)`: digest, filename and byte size of one file. -/
def _manifest_line (md5hex : List Nat → String) (file : String × List Nat) :
    String × String × Nat :=
  (md5hex file.2, file.1, file.2.length)

/-- `_make_manifest`: the manifest's lines and the returned Oxum string. -/
def _make_manifest (md5hex : List Nat → String) (files : List (String × List Nat)) :
    List String × String :=
  let results := files.map (_manifest_line md5hex)
  let numFiles := results.length
  let totalBytes := (results.map (fun r => r.2.2)).sum
  let lines := results.map (fun r => r.1 ++ "  " ++ r.2.1)
  (lines, toString totalBytes ++ "." ++ toString numFiles)

/-! ## Manifest Store: the line loop of `Bag._load_manifests`

`self.entries` is a dict from normalized path to a dict from algorithm to
hex digest; embedded as nested association lists with in-place update
(last value wins, as in the source where a duplicate only logs a warning
and overwrites). -/

/-- The entry store `self.entries`: path -> (algorithm -> digest). -/
abbrev Entries := List (String × List (String × String))

/-- `self.entries[path][alg] = hash` on an inner algorithm dict. -/
def setAlg (d : List (String × String)) (alg h : String) : List (String × String) :=
  if d.any (fun p => p.1 == alg) then
    d.map (fun p => if p.1 == alg then (p.1, h) else p)
  else d ++ [(alg, h)]

/-- The entry update of `_load_manifests`: create the path's dict when
absent, then set the algorithm's digest. -/
def setEntry (es : Entries) (path alg h : String) : Entries :=
  if es.any (fun p => p.1 == path) then
    es.map (fun p => if p.1 == path then (p.1, setAlg p.2 alg h) else p)
  else es ++ [(path, [(alg, h)])]

/-- The per-line loop of `Bag._load_manifests` for one manifest file:
strip the line; skip blanks and `#` comments; `split(None, 1)`; lines not
yielding exactly two tokens are logged and skipped; otherwise record
`entries[normpath(path.lstrip("*"))][alg] = digest`.  The loop body
contains no raise: the load is a total function of the lines. -/
def _load_manifest_lines (alg : String) (entries : Entries) :
    List String → Entries
  | [] => entries
  | line :: rest =>
    let l := pyStrip line
    if l == "" || l.startsWith "#" then _load_manifest_lines alg entries rest
    else
      match pySplitWs1 l with
      | [entry_hash, p1] =>
        _load_manifest_lines alg
          (setEntry entries (normpath (pyLstrip '*' p1)) alg entry_hash) rest
      | _ => _load_manifest_lines alg entries rest

/-- A line `_load_manifests` rejects with the "Invalid manifest entry" log:
non-blank, not a comment, but not exactly two whitespace-delimited tokens. -/
def manifestLineMalformed (line : String) : Bool :=
  let l := pyStrip line
  !(l == "") && !(l.startsWith "#") && !((pySplitWs1 l).length == 2)

/-! ## Algorithms

`checksum_algos = ['md5', 'sha1']` is the module-level list; the manifest
discovery `Bag.manifest_files` only probes `manifest-<alg>.txt` for those
two names.  `hashlib_algorithms` lists the algorithm names for which
`hashlib.new` succeeds (the guaranteed hashlib constructors); the
`try/except` around `hashlib.new(alg)` in `_validate_entries` keeps
exactly the supported names. -/

def checksum_algos : List String := ["md5", "sha1"]

/-- Algorithm names `hashlib.new` constructs (the guaranteed set). -/
def hashlib_algorithms : List String :=
  ["md5", "sha1", "sha224", "sha256", "sha384", "sha512"]

/-- `Bag.manifest_files` / the `alg` extraction of `_load_manifests`: for
each built-in algorithm whose `manifest-<alg>.txt` exists at the root, the
algorithm name (recovered by stripping the `manifest-` and `.txt` parts)
is appended to `self.algs`. -/
def manifest_algs (rootFiles : List String) : List String :=
  checksum_algos.filter (fun a => rootFiles.contains ("manifest-" ++ a ++ ".txt"))

/-! ## Structural validator: `Bag._validate_structure_tag_files` -/

/-- A root child is a regular file, a directory, or something else
(`os.path.isfile` / `os.path.isdir` both false). -/
inductive FSKind
  | file
  | dir
  | other
deriving DecidableEq, Repr

/-- The errors `_validate_structure_tag_files` raises (all
`BagValidationError`). -/
inductive StructError
  | extraDirectory (name : String)
  | extraTagFile (name : String)
  | unknownItem (name : String)
deriving DecidableEq, Repr

/-- `Bag.valid_files = ["bagit.txt", "fetch.txt"]`. -/
def bag_valid_files : List String := ["bagit.txt", "fetch.txt"]

/-- `Bag.valid_directories = ['data']`. -/
def bag_valid_directories : List String := ["data"]

/-- `isfile` on the root listing: the name is present with kind `file`. -/
def isPresentFile (listing : List (String × FSKind)) (n : String) : Bool :=
  listing.any (fun e => e.1 == n && e.2 == FSKind.file)

/-- `Bag.manifest_files()` relative to the root: the `manifest-<alg>.txt`
names, for the built-in algorithms only, that exist as files. -/
def manifest_file_names (listing : List (String × FSKind)) : List String :=
  (checksum_algos.map (fun a => "manifest-" ++ a ++ ".txt")).filter
    (isPresentFile listing)

/-- `Bag.tagmanifest_files()` relative to the root. -/
def tagmanifest_file_names (listing : List (String × FSKind)) : List String :=
  (checksum_algos.map (fun a => "tagmanifest-" ++ a ++ ".txt")).filter
    (isPresentFile listing)

/-- The `os.listdir` loop of `_validate_structure_tag_files`: directories
must be named in `valid_directories`, files must be in the computed
`valid_files` list or equal the version-derived tag file name
(`_validate_structure_is_valid_tag_file_name`), anything else is fatal. -/
def _validate_structure_go (valid_files : List String) (tagFileName : String) :
    List (String × FSKind) → Except StructError Unit
  | [] => .ok ()
  | (name, kind) :: rest =>
    match kind with
    | FSKind.dir =>
      if bag_valid_directories.contains name then
        _validate_structure_go valid_files tagFileName rest
      else .error (StructError.extraDirectory name)
    | FSKind.file =>
      if valid_files.contains name || name == tagFileName then
        _validate_structure_go valid_files tagFileName rest
      else .error (StructError.extraTagFile name)
    | FSKind.other => .error (StructError.unknownItem name)

/-- The `valid_files` local of `_validate_structure_tag_files`: the two
fixed names plus the present manifest and tagmanifest files (their
`{self.path}/` prefix stripped). -/
def bag_all_valid_files (listing : List (String × FSKind)) : List String :=
  bag_valid_files ++ manifest_file_names listing ++ tagmanifest_file_names listing

/-- `Bag._validate_structure_tag_files`: build `valid_files`, then scan the
listing. -/
def _validate_structure_tag_files (tagFileName : String)
    (listing : List (String × FSKind)) : Except StructError Unit :=
  _validate_structure_go (bag_all_valid_files listing) tagFileName listing

/-- The whitelist of the spec, restricted to the built-in algorithm list:
a legal child is the directory `data`, one of the two fixed file names, the
version-derived tag file, or a file named `manifest-<alg>.txt` /
`tagmanifest-<alg>.txt` for `alg` in `checksum_algos`. -/
def legalChild (tagFileName : String) (c : String × FSKind) : Bool :=
  match c.2 with
  | FSKind.dir => c.1 == "data"
  | FSKind.file =>
    bag_valid_files.contains c.1 || c.1 == tagFileName ||
      checksum_algos.any (fun a =>
        c.1 == "manifest-" ++ a ++ ".txt" || c.1 == "tagmanifest-" ++ a ++ ".txt")
  | FSKind.other => false

/-- The error kind the scan raises for an illegal child of each kind. -/
def structErrorFor : FSKind → String → StructError
  | FSKind.dir, n => StructError.extraDirectory n
  | FSKind.file, n => StructError.extraTagFile n
  | FSKind.other, n => StructError.unknownItem n

/-! ## Oxum check: `Bag._validate_oxum`

The payload walk is modelled as the list of `(path, byte size)` pairs
`payload_files` yields with their `os.stat` sizes. -/

/-- What `_validate_oxum` can raise: the `BagError("Invalid oxum: ...")`
format error, the `BagError("Oxum error. Found f files and b bytes on
disk; expected F files and B bytes.")` mismatch (arguments in that order),
or the uncaught `ValueError` from unpacking a split that did not yield two
parts. -/
inductive OxumError
  | invalidOxum (s : String)
  | oxumMismatch (totalFiles totalBytes fileCount byteCount : Nat)
  | valueError
deriving DecidableEq, Repr

/-- Total byte size of the walked payload. -/
def payloadBytes (payload : List (String × Nat)) : Nat :=
  (payload.map Prod.snd).sum

/-- `Bag._validate_oxum`: skip when no `Payload-Oxum` tag; unpack
`oxum.split('.', 1)` into two components (`ValueError` otherwise); both
must be digit strings (`BagError` otherwise); compare the declared pair
against the walked payload's file count and byte total. -/
def _validate_oxum (tags : List (String × String)) (payload : List (String × Nat)) :
    Except OxumError Unit :=
  match pyDictGet tags "Payload-Oxum" with
  | none => .ok ()
  | some oxum =>
    match pySplitChar1 '.' oxum with
    | [byte_count, file_count] =>
      if !pyIsDigit byte_count || !pyIsDigit file_count then
        .error (OxumError.invalidOxum oxum)
      else
        let bc := pyLong byte_count
        let fc := pyLong file_count
        let total_bytes := payloadBytes payload
        let total_files := payload.length
        if fc != total_files || bc != total_bytes then
          .error (OxumError.oxumMismatch total_files total_bytes fc bc)
        else .ok ()
    | _ => .error OxumError.valueError

/-! ## Hash check: `Bag._validate_entries`

The filesystem is a predicate `fileExists` on full paths; `hashlib`
digesting a file is an oracle `digestF : full path → algorithm → hex
digest` (what `_calculate_file_hashes` returns for each algorithm whose
hash object it was handed).  Note two faithfully preserved slips of the
source: the per-file `f_hashers` dict is computed but the call passes
`hashers`, and the comparison loop iterates `f_hashes.items()` — the
computed digests — for `stored_hash`, then reads `computed_hash =
f_hashes[alg]` from the same dict. -/

/-- What `_validate_entries` can raise: the `RuntimeError` when no
recorded algorithm is supported, the re-raised `BagValidationError` from
`_calculate_file_hashes` for a missing payload file, or the final
aggregated `BagValidationError` listing the `"path (alg)"` strings. -/
inductive VError
  | unsupportedAlgorithm (algs : List String)
  | missingPayload (fullPath : String)
  | checksumMismatch (errors : List String)
deriving DecidableEq, Repr

/-- The `self.entries.items()` loop of `_validate_entries`, with the
`errors` accumulator explicit. -/
def _validate_entries_go (bagPath : String) (hashers : List String)
    (fileExists : String → Bool) (digestF : String → String → String)
    (errors : List String) :
    List (String × List (String × String)) → Except VError Unit
  | [] =>
    if errors.isEmpty then .ok ()
    else .error (VError.checksumMismatch errors)
  | (relPath, hashes) :: rest =>
    let fullPath := bagPath ++ "/" ++ relPath
    -- f_hashers, computed from `hashes` but never passed on:
    let _f_hashers := hashers.filter (fun a => hashes.any (fun p => p.1 == a))
    if !fileExists fullPath then .error (VError.missingPayload fullPath)
    else
      let f_hashes := hashers.map (fun a => (a, digestF fullPath a))
      let newErrors := f_hashes.filterMap (fun p =>
        let stored_hash := p.2
        let computed_hash := ((f_hashes.filter (fun q => q.1 == p.1)).head?).map Prod.snd
        if !(computed_hash == some stored_hash) then
          some (fullPath ++ " (" ++ p.1 ++ ")")
        else none)
      _validate_entries_go bagPath hashers fileExists digestF (errors ++ newErrors) rest

/-- `Bag._validate_entries`: build the `hashers` dict keeping the
algorithms `hashlib.new` accepts; fail with the `RuntimeError` when none
remains; then run the entries loop and finally raise the aggregated
mismatch error when any was collected. -/
def _validate_entries (bagPath : String) (algs : List String)
    (entries : List (String × List (String × String)))
    (fileExists : String → Bool) (digestF : String → String → String) :
    Except VError Unit :=
  let hashers := algs.filter (fun a => hashlib_algorithms.contains a)
  if hashers.isEmpty then .error (VError.unsupportedAlgorithm algs)
  else _validate_entries_go bagPath hashers fileExists digestF [] entries

/-! ## Build: the exception handling of `make_bag`

`make_bag` runs, inside a `try` whose `except Exception` only logs, the
steps: `os.mkdir('data')`, the rename loop moving every root entry into
`data`, `_make_manifest('manifest-md5.txt', ...)`, writing `bagit.txt`
(fixed content `BagIt-Version: 0.96` / `Tag-File-Character-Encoding:
UTF-8`), and writing `bag-info.txt` (with `Bagging-Date` and
`Payload-Oxum`).  After the `finally`, it unconditionally executes
`return Bag(bag_dir)`, so the only signal a caller can receive is whatever
`Bag._open` raises on the directory left behind.  The directory is
modelled by which artifacts the completed steps produced; a failure at a
step leaves every earlier step's artifact in place. -/

inductive BuildStep
  | mkdirData
  | renamePayload
  | writeManifest
  | writeBagitTxt
  | writeBagInfo
deriving DecidableEq, Repr

/-- The target directory's observable build artifacts. -/
structure DirState where
  hasData : Bool
  payloadInData : Bool
  hasManifestMd5 : Bool
  hasBagitTxt : Bool
  hasBagInfo : Bool
deriving DecidableEq, Repr

def initialDir : DirState :=
  { hasData := false, payloadInData := false, hasManifestMd5 := false,
    hasBagitTxt := false, hasBagInfo := false }

def applyStep (d : DirState) : BuildStep → DirState
  | BuildStep.mkdirData => { d with hasData := true }
  | BuildStep.renamePayload => { d with payloadInData := true }
  | BuildStep.writeManifest => { d with hasManifestMd5 := true }
  | BuildStep.writeBagitTxt => { d with hasBagitTxt := true }
  | BuildStep.writeBagInfo => { d with hasBagInfo := true }

def buildSteps : List BuildStep :=
  [BuildStep.mkdirData, BuildStep.renamePayload, BuildStep.writeManifest,
   BuildStep.writeBagitTxt, BuildStep.writeBagInfo]

/-- The `try` body: run the steps in order; an exception at `failAt`
aborts the remaining steps, and the `except Exception` clause swallows it
(only `logging.error`), so the body's outcome is just the partial state. -/
def runBuildBody (failAt : Option BuildStep) : DirState :=
  go initialDir buildSteps
where
  go (d : DirState) : List BuildStep → DirState
    | [] => d
    | s :: rest => if failAt == some s then d else go (applyStep d s) rest

/-- The parts of `Bag` that `Bag._open` populates which matter here. -/
structure OpenedBag where
  version : String
  tagFileName : String
  hasInfo : Bool
deriving DecidableEq, Repr

/-- `Bag._open` on a directory `make_bag` worked in: `bagit.txt` must
exist (else `BagError`); its content, when `make_bag` wrote it, is fixed,
so the version is `0.96`, the tag file name `bag-info.txt`, the encoding
check passes, and `bag-info.txt` is loaded only if present (its absence is
not an error). -/
def openBag (d : DirState) : Except String OpenedBag :=
  if !d.hasBagitTxt then .error "No bagit.txt found"
  else .ok { version := "0.96", tagFileName := "bag-info.txt", hasInfo := d.hasBagInfo }

/-- `make_bag` under an internal failure at `failAt`: the swallowed body
followed by the unconditional `return Bag(bag_dir)`. -/
def make_bag (failAt : Option BuildStep) : Except String OpenedBag :=
  openBag (runBuildBody failAt)

/-! ## Helper lemmas -/

/-- `List.contains` agrees with membership for strings. -/
theorem string_contains_iff {l : List String} {a : String} :
    l.contains a = true ↔ a ∈ l := by
  simp [List.contains]

/-- Filtering the blank lines out does not change what `_parse_tags_aux`
produces: the loop's first branch skips them whatever the pending state. -/
theorem parse_tags_aux_filter_blank (lines : List String) :
    ∀ pending, _parse_tags_aux pending (lines.filter (fun l => !pyIsBlankLine l)) =
      _parse_tags_aux pending lines := by
  induction lines with
  | nil => intro pending; rfl
  | cons line rest ih =>
    intro pending
    cases hb : pyIsBlankLine line with
    | true =>
      rw [List.filter_cons_of_neg (by simp [hb])]
      rw [ih pending]
      conv_rhs => simp only [_parse_tags_aux, hb, if_true]
    | false =>
      rw [List.filter_cons_of_pos (by simp [hb])]
      simp only [_parse_tags_aux, hb]
      cases hf : pyFirstCharIsSpace line with
      | true =>
        cases pending with
        | none => simp
        | some p => simp [ih]
      | false =>
        simp only [Bool.false_eq_true, if_false]
        rcases hsp : pySplitChar1 ':' (pyStrip line) with _ | ⟨p0, _ | ⟨p1, tail⟩⟩
        · rfl
        · rfl
        · cases tail with
          | nil => simp only [ih]
          | cons x xs => rfl

/-- Filtering the malformed lines out does not change what the manifest
loader builds: the loop logs and skips them, whatever the store so far. -/
theorem load_manifest_lines_filter_malformed (alg : String) (lines : List String) :
    ∀ entries, _load_manifest_lines alg entries
        (lines.filter (fun l => !manifestLineMalformed l)) =
      _load_manifest_lines alg entries lines := by
  induction lines with
  | nil => intro entries; rfl
  | cons line rest ih =>
    intro entries
    cases hm : manifestLineMalformed line with
    | true =>
      rw [List.filter_cons_of_neg (by simp [hm])]
      rw [ih entries]
      simp only [manifestLineMalformed, Bool.and_eq_true, Bool.not_eq_eq_eq_not,
        Bool.not_true] at hm
      conv_rhs => simp only [_load_manifest_lines]
      rcases hm with ⟨⟨h1, h2⟩, h3⟩
      simp only [h1, h2, Bool.or_self, Bool.false_eq_true, if_false]
      rcases hsp : pySplitWs1 (pyStrip line) with _ | ⟨a, _ | ⟨b, _ | _⟩⟩ <;>
        simp_all
    | false =>
      rw [List.filter_cons_of_pos (by simp [hm])]
      simp only [_load_manifest_lines]
      cases hbc : (pyStrip line == "" || (pyStrip line).startsWith "#") with
      | true => simp only [hbc, if_true]; exact ih entries
      | false =>
        simp only [hbc, Bool.false_eq_true, if_false]
        rcases hsp : pySplitWs1 (pyStrip line) with _ | ⟨a, _ | ⟨b, _ | _⟩⟩ <;>
          simp only [ih]

/-- The only names `manifest_file_names` can return. -/
theorem manifest_file_names_eq (listing : List (String × FSKind)) :
    manifest_file_names listing =
      ["manifest-md5.txt", "manifest-sha1.txt"].filter (isPresentFile listing) := rfl

/-- The only names `tagmanifest_file_names` can return. -/
theorem tagmanifest_file_names_eq (listing : List (String × FSKind)) :
    tagmanifest_file_names listing =
      ["tagmanifest-md5.txt", "tagmanifest-sha1.txt"].filter (isPresentFile listing) := rfl

/-- The whitelist predicate on a file child, spelled out name by name. -/
theorem legal_file_iff {t n : String} :
    legalChild t (n, FSKind.file) = true ↔
      (n = "bagit.txt" ∨ n = "fetch.txt" ∨ n = t ∨ n = "manifest-md5.txt" ∨
       n = "manifest-sha1.txt" ∨ n = "tagmanifest-md5.txt" ∨
       n = "tagmanifest-sha1.txt") := by
  have h1 : ("manifest-" ++ "md5" ++ ".txt" : String) = "manifest-md5.txt" := rfl
  have h2 : ("manifest-" ++ "sha1" ++ ".txt" : String) = "manifest-sha1.txt" := rfl
  have h3 : ("tagmanifest-" ++ "md5" ++ ".txt" : String) = "tagmanifest-md5.txt" := rfl
  have h4 : ("tagmanifest-" ++ "sha1" ++ ".txt" : String) = "tagmanifest-sha1.txt" := rfl
  simp only [legalChild, checksum_algos, bag_valid_files, List.any_cons, List.any_nil,
    h1, h2, h3, h4, Bool.or_eq_true, string_contains_iff, beq_iff_eq, List.mem_cons,
    List.not_mem_nil, or_false, Bool.or_false]
  tauto

/-- The file condition of the scan, spelled out name by name. -/
theorem cond_file_iff {t n : String} {listing : List (String × FSKind)} :
    ((bag_all_valid_files listing).contains n || n == t) = true ↔
      (n = "bagit.txt" ∨ n = "fetch.txt" ∨ n = t ∨
       ((n = "manifest-md5.txt" ∨ n = "manifest-sha1.txt" ∨
         n = "tagmanifest-md5.txt" ∨ n = "tagmanifest-sha1.txt") ∧
        isPresentFile listing n = true)) := by
  simp only [bag_all_valid_files, Bool.or_eq_true, string_contains_iff,
    List.mem_append, manifest_file_names_eq, tagmanifest_file_names_eq,
    List.mem_filter, bag_valid_files, List.mem_cons, List.not_mem_nil, or_false,
    beq_iff_eq]
  tauto

/-- A file name the scan's condition accepts is legal per the whitelist. -/
theorem cond_imp_legal {t : String} {listing : List (String × FSKind)} {n : String}
    (h : ((bag_all_valid_files listing).contains n || n == t) = true) :
    legalChild t (n, FSKind.file) = true := by
  rw [cond_file_iff] at h
  rw [legal_file_iff]
  tauto

/-- A legal file child that is actually present in the listing is accepted
by the scan's condition. -/
theorem legal_imp_cond {t : String} {listing : List (String × FSKind)} {n : String}
    (hmem : (n, FSKind.file) ∈ listing) (h : legalChild t (n, FSKind.file) = true) :
    ((bag_all_valid_files listing).contains n || n == t) = true := by
  have hpres : isPresentFile listing n = true := by
    simp only [isPresentFile, List.any_eq_true]
    exact ⟨(n, FSKind.file), hmem, by simp⟩
  rw [legal_file_iff] at h
  rw [cond_file_iff]
  tauto

/-- One step of the scan on a directory child. -/
theorem go_cons_dir (vf : List String) (t name : String) (rest : List (String × FSKind)) :
    _validate_structure_go vf t ((name, FSKind.dir) :: rest) =
      (if bag_valid_directories.contains name then _validate_structure_go vf t rest
       else .error (StructError.extraDirectory name)) := rfl

/-- One step of the scan on a file child. -/
theorem go_cons_file (vf : List String) (t name : String) (rest : List (String × FSKind)) :
    _validate_structure_go vf t ((name, FSKind.file) :: rest) =
      (if vf.contains name || name == t then _validate_structure_go vf t rest
       else .error (StructError.extraTagFile name)) := rfl

/-- One step of the scan on a child of unknown kind. -/
theorem go_cons_other (vf : List String) (t name : String) (rest : List (String × FSKind)) :
    _validate_structure_go vf t ((name, FSKind.other) :: rest) =
      .error (StructError.unknownItem name) := rfl

/-- The scan accepts a sublist of the listing exactly when every child in
it is legal per the whitelist. -/
theorem go_ok_iff {t : String} {listing : List (String × FSKind)} :
    ∀ sub : List (String × FSKind), (∀ c ∈ sub, c ∈ listing) →
      (_validate_structure_go (bag_all_valid_files listing) t sub = .ok () ↔
        ∀ c ∈ sub, legalChild t c = true) := by
  intro sub
  induction sub with
  | nil => intro _; simp [_validate_structure_go]
  | cons c rest ih =>
    intro hsub
    obtain ⟨name, kind⟩ := c
    have hmem : (name, kind) ∈ listing := hsub _ (List.mem_cons_self _ _)
    have ihr := ih (fun c hc => hsub c (List.mem_cons_of_mem _ hc))
    cases kind with
    | dir =>
      rw [go_cons_dir]
      cases hd : bag_valid_directories.contains name with
      | true =>
        rw [if_pos rfl, ihr]
        have hl : legalChild t (name, FSKind.dir) = true := by
          have := string_contains_iff.mp hd
          simp only [bag_valid_directories, List.mem_cons, List.not_mem_nil,
            or_false] at this
          simp [legalChild, this]
        constructor
        · intro hr c hc
          rcases List.mem_cons.mp hc with rfl | hc2
          · exact hl
          · exact hr c hc2
        · intro h c hc
          exact h c (List.mem_cons_of_mem _ hc)
      | false =>
        rw [if_neg (by simp [hd])]
        have hl : legalChild t (name, FSKind.dir) = false := by
          cases hl : legalChild t (name, FSKind.dir) with
          | false => rfl
          | true =>
            have hn : name = "data" := by simpa [legalChild] using hl
            rw [hn] at hd
            simp [bag_valid_directories, List.contains] at hd
        constructor
        · intro h
          exact absurd h (by simp)
        · intro h
          exact absurd (h _ (List.mem_cons_self _ _)) (by simp [hl])
    | file =>
      rw [go_cons_file]
      cases hc2 : ((bag_all_valid_files listing).contains name || name == t) with
      | true =>
        rw [if_pos rfl, ihr]
        have hl := cond_imp_legal hc2
        constructor
        · intro hr c hc
          rcases List.mem_cons.mp hc with rfl | hcr
          · exact hl
          · exact hr c hcr
        · intro h c hc
          exact h c (List.mem_cons_of_mem _ hc)
      | false =>
        rw [if_neg (by simp [hc2])]
        have hnl : legalChild t (name, FSKind.file) = false := by
          cases hl : legalChild t (name, FSKind.file) with
          | false => rfl
          | true =>
            rw [legal_imp_cond hmem hl] at hc2
            cases hc2
        constructor
        · intro h
          exact absurd h (by simp)
        · intro h
          exact absurd (h _ (List.mem_cons_self _ _)) (by simp [hnl])
    | other =>
      rw [go_cons_other]
      constructor
      · intro h
        exact absurd h (by simp)
      · intro h
        exact absurd (h _ (List.mem_cons_self _ _)) (by simp [legalChild])

/-- When every child before some position is legal and the child at that
position is not, the scan raises the error kind determined by that child's
kind. -/
theorem go_error_at {t : String} {listing : List (String × FSKind)} :
    ∀ (l1 : List (String × FSKind)) (name : String) (kind : FSKind)
      (l2 : List (String × FSKind)),
      (∀ c ∈ l1, c ∈ listing) → (∀ c ∈ l1, legalChild t c = true) →
      legalChild t (name, kind) = false →
      _validate_structure_go (bag_all_valid_files listing) t (l1 ++ (name, kind) :: l2) =
        .error (structErrorFor kind name) := by
  intro l1
  induction l1 with
  | nil =>
    intro name kind l2 _ _ hbad
    rw [List.nil_append]
    cases kind with
    | dir =>
      rw [go_cons_dir]
      have hd : bag_valid_directories.contains name = false := by
        cases hd : bag_valid_directories.contains name with
        | true =>
          have := string_contains_iff.mp hd
          simp only [bag_valid_directories, List.mem_cons, List.not_mem_nil,
            or_false] at this
          rw [show legalChild t (name, FSKind.dir) = true from by simp [legalChild, this]]
            at hbad
          cases hbad
        | false => rfl
      rw [if_neg (by intro hcc; rw [hcc] at hd; exact Bool.noConfusion hd)]
      rfl
    | file =>
      rw [go_cons_file]
      have hcond : ((bag_all_valid_files listing).contains name || name == t) = false := by
        cases hc : ((bag_all_valid_files listing).contains name || name == t) with
        | true =>
          rw [cond_imp_legal hc] at hbad
          cases hbad
        | false => rfl
      rw [if_neg (by intro hcc; rw [hcc] at hcond; exact Bool.noConfusion hcond)]
      rfl
    | other =>
      rw [go_cons_other]
      rfl
  | cons c rest ih =>
    intro name kind l2 hmem hleg hbad
    obtain ⟨n1, k1⟩ := c
    have hc1 : legalChild t (n1, k1) = true := hleg _ (List.mem_cons_self _ _)
    have hm1 : (n1, k1) ∈ listing := hmem _ (List.mem_cons_self _ _)
    have ihr := ih name kind l2 (fun c hc => hmem c (List.mem_cons_of_mem _ hc))
      (fun c hc => hleg c (List.mem_cons_of_mem _ hc)) hbad
    rw [List.cons_append]
    cases k1 with
    | dir =>
      have hnd : n1 = "data" := by simpa [legalChild] using hc1
      rw [go_cons_dir, if_pos (by rw [hnd]; rfl)]
      exact ihr
    | file =>
      rw [go_cons_file, if_pos (legal_imp_cond hm1 hc1)]
      exact ihr
    | other => simp [legalChild] at hc1

/-! ## Claim theorems -/

/-- Claim C1 (code bug, evaluated at the failing input): a bag records the
md5 digest "aaa" for `data/a.txt` while the file's bytes now hash to "bbb"
(one byte was mutated after build), yet `_validate_entries` succeeds: the
comparison loop reads `stored_hash` from `f_hashes.items()` — the freshly
computed digests — and compares it with `f_hashes[alg]`, i.e. with itself,
so no mismatch is ever recorded and no aggregated failure is raised. -/
theorem validate_entries_never_reports_mismatch :
    ("bbb" : String) ≠ "aaa" ∧
    _validate_entries "bag" ["md5"] [("data/a.txt", [("md5", "aaa")])]
      (fun _ => true) (fun _ _ => "bbb") = .ok () :=
  ⟨by decide, rfl⟩

/-- Claim C2 (code bug, evaluated at the failing input): when an internal
step of `make_bag` fails while writing `bag-info.txt` — after the payload
was relocated, the manifest and `bagit.txt` written — the bare
`except Exception` swallows the error and `return Bag(bag_dir)` still
succeeds, handing the caller a seemingly valid bag handle although the
directory is incomplete (no `bag-info.txt`, hence no recorded Oxum). -/
theorem make_bag_returns_handle_after_failure :
    make_bag (some BuildStep.writeBagInfo) =
      .ok { version := "0.96", tagFileName := "bag-info.txt", hasInfo := false } ∧
    (runBuildBody (some BuildStep.writeBagInfo)).payloadInData = true ∧
    (runBuildBody (some BuildStep.writeBagInfo)).hasBagInfo = false :=
  ⟨rfl, rfl, rfl⟩

/-- Claim C3 (counterexample): on the input `"Name: Foo\n  bar\n"` the
parser yields the single record `("Name", "Foobar")`, not
`("Name", "Foo bar")`: the continuation's stripped content is concatenated
with no separator. -/
theorem parse_tags_fold_counterexample :
    _parse_tags ["Name: Foo\n", "  bar\n"] = .ok [("Name", "Foobar")] ∧
    ("Foobar" : String) ≠ "Foo bar" :=
  ⟨rfl, by decide⟩

/-- Claim C3 (amended): the two-line input `"Name: Foo\n  bar\n"` parses
to exactly one record, name `"Name"`, value `"Foobar"` — the continuation
line's trimmed content is appended directly to the accumulated value. -/
theorem parse_tags_fold_amended :
    _parse_tags ["Name: Foo\n", "  bar\n"] = .ok [("Name", "Foobar")] := rfl

/-- Claim C4: blank or whitespace-only lines are skipped entirely by the
tag parser, even mid-fold — filtering them out of any input leaves the
result unchanged; in particular a blank line between two continuation
lines yields the same record as the two continuations adjacent. -/
theorem parse_tags_blank_lines_skipped :
    (∀ lines : List String,
      _parse_tags lines = _parse_tags (lines.filter (fun l => !pyIsBlankLine l))) ∧
    _parse_tags ["Name: Foo\n", "  bar\n", " \n", "  baz\n"] =
      _parse_tags ["Name: Foo\n", "  bar\n", "  baz\n"] := by
  constructor
  · intro lines
    exact (parse_tags_aux_filter_blank lines none).symm
  · rfl

/-- Claim C5 (counterexample): with the Oxum tag `"11"` — no `'.'`
separator — `_validate_oxum` raises the unpacking `ValueError`, not the
`"Invalid oxum"` format error the claim promises for every malformed
string. -/
theorem validate_oxum_counterexample :
    _validate_oxum [("Payload-Oxum", "11")] [] = .error OxumError.valueError ∧
    OxumError.valueError ≠ OxumError.invalidOxum "11" :=
  ⟨rfl, by decide⟩

/-- Claim C5 (amended): the Oxum check runs only when a `Payload-Oxum` tag
is present; a value that does not split at `'.'` into exactly two parts
fails with the unpacking `ValueError`; two parts that are not both digit
strings fail with the `"Invalid oxum"` format error; a well-formed pair
that disagrees with the walked payload's file count or byte total fails
with the mismatch error carrying both the observed and the declared
values; and a matching pair passes. -/
theorem validate_oxum_amended (tags : List (String × String))
    (payload : List (String × Nat)) :
    (pyDictGet tags "Payload-Oxum" = none → _validate_oxum tags payload = .ok ()) ∧
    (∀ s, pyDictGet tags "Payload-Oxum" = some s →
      ((pySplitChar1 '.' s).length ≠ 2 →
        _validate_oxum tags payload = .error OxumError.valueError) ∧
      (∀ b f, pySplitChar1 '.' s = [b, f] →
        ((pyIsDigit b && pyIsDigit f) = false →
          _validate_oxum tags payload = .error (OxumError.invalidOxum s)) ∧
        (pyIsDigit b = true → pyIsDigit f = true →
          ((pyLong f ≠ payload.length ∨ pyLong b ≠ payloadBytes payload) →
            _validate_oxum tags payload =
              .error (OxumError.oxumMismatch payload.length (payloadBytes payload)
                (pyLong f) (pyLong b))) ∧
          (pyLong f = payload.length → pyLong b = payloadBytes payload →
            _validate_oxum tags payload = .ok ())))) := by
  refine ⟨fun h => by simp [_validate_oxum, h], fun s hs => ⟨?_, fun b f hbf => ⟨?_, ?_⟩⟩⟩
  · intro hlen
    rcases hsp : pySplitChar1 '.' s with _ | ⟨a, _ | ⟨b, _ | _⟩⟩
    · simp [_validate_oxum, hs, hsp]
    · simp [_validate_oxum, hs, hsp]
    · exact absurd (by rw [hsp]; rfl) hlen
    · simp [_validate_oxum, hs, hsp]
  · intro hdig
    have hcond : (!pyIsDigit b || !pyIsDigit f) = true := by
      rw [← Bool.not_and]
      simp [hdig]
    simp [_validate_oxum, hs, hbf, hcond]
  · intro hb hf
    constructor
    · intro hne
      have hcond : (pyLong f != payload.length || pyLong b != payloadBytes payload) = true := by
        rcases hne with h | h <;> simp [bne_iff_ne, h]
      simp [_validate_oxum, hs, hbf, hb, hf, hcond]
    · intro h1 h2
      simp [_validate_oxum, hs, hbf, hb, hf, h1, h2]

/-- Claim C5 (witness): declared Oxum `"1.2"` against a payload of one
3-byte file fails with the mismatch error reporting 1 file and 3 bytes
found, 2 files and 1 byte expected. -/
theorem validate_oxum_amended_witness :
    _validate_oxum [("Payload-Oxum", "1.2")] [("data/x.txt", 3)] =
      .error (OxumError.oxumMismatch 1 3 2 1) :=
  ((((validate_oxum_amended [("Payload-Oxum", "1.2")] [("data/x.txt", 3)]).2
      "1.2" rfl).2 "1" "2" rfl).2 rfl rfl).1 (Or.inl (by decide))

/-- Claim C6: for every payload set the Oxum `_make_manifest` returns is
exactly `"<total bytes>.<file count>"` of the walked payload and the
manifest has one line per file; concretely, for `a.txt` = "hello"
(5 bytes) and `b/b.txt` = "world!" (6 bytes) it writes 2 manifest entries
and records `"11.2"`, whatever digests md5 produces. -/
theorem make_manifest_oxum :
    (∀ (md5hex : List Nat → String) (files : List (String × List Nat)),
      (_make_manifest md5hex files).2 =
        toString ((files.map (fun f => f.2.length)).sum) ++ "." ++ toString files.length ∧
      (_make_manifest md5hex files).1.length = files.length) ∧
    (∀ md5hex : List Nat → String,
      (_make_manifest md5hex
          [("data/a.txt", [104, 101, 108, 108, 111]),
           ("data/b/b.txt", [119, 111, 114, 108, 100, 33])]).2 = "11.2" ∧
      (_make_manifest md5hex
          [("data/a.txt", [104, 101, 108, 108, 111]),
           ("data/b/b.txt", [119, 111, 114, 108, 100, 33])]).1.length = 2) := by
  constructor
  · intro md5hex files
    constructor
    · simp only [_make_manifest, List.map_map, List.length_map]
      exact rfl
    · simp [_make_manifest]
  · intro md5hex
    constructor
    · show toString (11 : Nat) ++ "." ++ toString (2 : Nat) = "11.2"
      exact rfl
    · simp [_make_manifest]

/-- Claim C7 (counterexample): the file `"manifest-sha256.txt"` matches
`manifest-<alg>.txt` for the algorithm `sha256`, yet structural validation
rejects it as an extra tag file: only the built-in algorithms md5 and sha1
are probed when the whitelist is built. -/
theorem validate_structure_counterexample :
    _validate_structure_tag_files "bag-info.txt" [("manifest-sha256.txt", FSKind.file)] =
      .error (StructError.extraTagFile "manifest-sha256.txt") ∧
    "manifest-sha256.txt" = "manifest-" ++ "sha256" ++ ".txt" :=
  ⟨rfl, rfl⟩

/-- Claim C7 (amended): structural validation accepts the listing iff
every root child is in the whitelist — `bagit.txt`, `fetch.txt`, the
version-derived tag file name, `manifest-<alg>.txt` / `tagmanifest-<alg>.txt`
for `alg` among the built-in algorithms md5 and sha1 only, or the
directory `data` — and when a first illegal child exists the error raised
is extra-directory for a directory, extra-tag-file for a file, and
unknown-item for anything else. -/
theorem validate_structure_whitelist (t : String) (listing : List (String × FSKind)) :
    (_validate_structure_tag_files t listing = .ok () ↔
      ∀ c ∈ listing, legalChild t c = true) ∧
    (∀ (l1 : List (String × FSKind)) (name : String) (kind : FSKind)
        (l2 : List (String × FSKind)),
      listing = l1 ++ (name, kind) :: l2 →
      (∀ c ∈ l1, legalChild t c = true) → legalChild t (name, kind) = false →
      _validate_structure_tag_files t listing = .error (structErrorFor kind name)) := by
  constructor
  · exact go_ok_iff listing (fun c hc => hc)
  · intro l1 name kind l2 hsplit hleg hbad
    rw [_validate_structure_tag_files, hsplit]
    exact go_error_at l1 name kind l2
      (fun c hc => List.mem_append_left _ hc) hleg hbad

/-- Claim C7 (witness): a listing whose second child is the extra
directory `junk` fails with the extra-directory error naming it. -/
theorem validate_structure_whitelist_witness :
    _validate_structure_tag_files "bag-info.txt"
        [("data", FSKind.dir), ("junk", FSKind.dir)] =
      .error (StructError.extraDirectory "junk") :=
  (validate_structure_whitelist "bag-info.txt"
      [("data", FSKind.dir), ("junk", FSKind.dir)]).2
    [("data", FSKind.dir)] "junk" FSKind.dir [] rfl (by decide) (by decide)

/-- Claim C8: manifest lines that do not consist of exactly two
whitespace-delimited tokens are logged and skipped — removing them from
the input leaves the loaded entry store unchanged, for every algorithm,
prior store and line list; the loader is a total function and never
raises. -/
theorem load_manifest_skips_malformed :
    ∀ (alg : String) (entries : Entries) (lines : List String),
      _load_manifest_lines alg entries lines =
        _load_manifest_lines alg entries
          (lines.filter (fun l => !manifestLineMalformed l)) :=
  fun alg entries lines => (load_manifest_lines_filter_malformed alg lines entries).symm

/-- Claim C9: when none of the algorithms recorded from the present
manifest files is locally computable — in particular for a bag whose only
manifest names an algorithm outside the built-in list, so that no
algorithm is recorded at all — `_validate_entries` fails with the
unsupported-algorithm error instead of silently passing. -/
theorem validate_entries_no_supported_alg (bagPath : String) (rootFiles : List String)
    (entries : Entries) (fileExists : String → Bool) (digestF : String → String → String)
    (h : ∀ a ∈ manifest_algs rootFiles, a ∉ hashlib_algorithms) :
    _validate_entries bagPath (manifest_algs rootFiles) entries fileExists digestF =
      .error (VError.unsupportedAlgorithm (manifest_algs rootFiles)) := by
  have hfil : (manifest_algs rootFiles).filter
      (fun a => hashlib_algorithms.contains a) = [] := by
    rw [List.filter_eq_nil_iff]
    intro a ha
    simpa [string_contains_iff] using h a ha
  have step : _validate_entries bagPath (manifest_algs rootFiles) entries fileExists digestF =
      (if ((manifest_algs rootFiles).filter (fun a => hashlib_algorithms.contains a)).isEmpty
       then .error (VError.unsupportedAlgorithm (manifest_algs rootFiles))
       else _validate_entries_go bagPath
         ((manifest_algs rootFiles).filter (fun a => hashlib_algorithms.contains a))
         fileExists digestF [] entries) := rfl
  rw [step, hfil]
  rfl

/-- Claim C9 (witness): a bag whose root holds only `manifest-sha256.txt`
records no usable algorithm, and content validation fails with the
unsupported-algorithm error. -/
theorem validate_entries_no_supported_alg_witness :
    _validate_entries "mybag" (manifest_algs ["manifest-sha256.txt"]) []
      (fun _ => false) (fun _ _ => "") =
      .error (VError.unsupportedAlgorithm (manifest_algs ["manifest-sha256.txt"])) :=
  validate_entries_no_supported_alg "mybag" ["manifest-sha256.txt"] []
    (fun _ => false) (fun _ _ => "") (by decide)

/-- Claim C10: the tag parser is not total — the non-blank, non-indented,
colon-less line `"foo\n"` makes it raise the `IndexError` from indexing
the missing second half of the colon split. -/
theorem parse_tags_colonless_crash :
    _parse_tags ["foo\n"] = .error ParseErr.indexError ∧
    pyIsBlankLine "foo\n" = false ∧ pyFirstCharIsSpace "foo\n" = false ∧
    ("foo\n".data.contains ':') = false :=
  ⟨rfl, rfl, rfl, rfl⟩
